import Mathlib

/-!
Shallow embedding of the label-printing core of `brother_ql_web.py`
(functions `get_label_context`, `get_font_path`, `get_label_dimensions`,
`create_label_im`, `get_preview_image`, `print_text`).

Modelling conventions:
* Python strings are `List Char` (`Str`); request fields are `Option`-typed
  (a key absent from the form data is `none`).
* Numeric form fields are modelled as already-parsed integers.  The float
  arithmetic of the margin conversion (`float(pct)/100.` on lines 150-153,
  then `int(font_size * ...)` on lines 155-158) is modelled bit-exactly:
  every float operation performs one IEEE-754 binary64 rounding
  (round-to-nearest, ties-to-even, 53-bit significand), computed exactly
  over integers by `roundB64` on dyadic mantissa-exponent pairs, and
  Python `int()` truncates toward zero (`dyadicTrunc`).  Binary64
  exponent overflow and subnormal underflow are unreachable for inputs
  within the binary64 range; outside it the model extends the same
  unbounded-exponent formula.
* Python exceptions become an explicit `Exc` value threaded through
  `Except`.  `KeyError` and `LookupError('...')` are both of Python class
  `LookupError`, which `print_text`'s `except LookupError` clause catches;
  `TypeError`, `AttributeError` and `NameError` are not.
  Accessing `e.msg` on a Python-3 `LookupError` raises `AttributeError`
  (the attribute does not exist); the model reflects that.
* PIL text measurement (`draw.multiline_textsize`) is an external
  collaborator and is passed in as an oracle `measure : Str → Int × Int`
  giving `(textWidth, textHeight)` of an already-normalized text.
* The raster encoder (`create_label`) and the transport backend are
  external; the backend's `write` behaviour is a parameter, and the
  observable side effects (encoder invoked, write attempted, dispose
  invoked) are recorded in a `Trace`.
-/

set_option maxRecDepth 100000
set_option maxHeartbeats 1000000

deriving instance DecidableEq for Except

/-- Python strings, modelled as character lists. -/
abbrev Str := List Char

/-- Python `\w` word character (ASCII model: alphanumeric or underscore). -/
def isWordChar (c : Char) : Bool := c.isAlphanum || c = '_'

/-- Python `str.strip()`: drop whitespace at both ends. -/
def strip (s : Str) : Str :=
  ((s.dropWhile Char.isWhitespace).reverse.dropWhile Char.isWhitespace).reverse

/-- The part of `s` before the LAST occurrence of `c`, if `c` occurs. -/
def beforeLast (c : Char) : Str → Option Str
  | [] => none
  | x :: xs =>
    match beforeLast c xs with
    | some r => some (x :: r)
    | none => if x = c then some [] else none

/-- Python `s.rpartition('(')[0]`: text before the last `'('`, `""` if none. -/
def beforeLastParen (s : Str) : Str := (beforeLast '(' s).getD []

/-- Python `re.search(r'\((\w*)\)', s)`, returning group 1: the leftmost
`'('` that is followed by a (maximal, greedy) run of word characters and
then `')'`; `none` when the pattern does not occur. -/
def searchStyle : Str → Option Str
  | [] => none
  | c :: rest =>
    if c = '(' then
      match rest.dropWhile isWordChar with
      | ')' :: _ => some (rest.takeWhile isWordChar)
      | _ => searchStyle rest
    else searchStyle rest

/-- Python `s.split('\n')` (note `''.split('\n') == ['']`). -/
def splitNl : Str → List Str
  | [] => [[]]
  | x :: xs =>
    match splitNl xs with
    | r :: rs => if x = '\n' then [] :: r :: rs else (x :: r) :: rs
    | [] => [[x]]

/-- Python `'\n'.join(lines)`. -/
def joinNl : List Str → Str
  | [] => []
  | [l] => l
  | l :: ls => l ++ '\n' :: joinNl ls

/-- Association-list lookup with decidable key equality (models indexing a
Python dict whose keys are strings). -/
def alookup {α : Type} (k : Str) : List (Str × α) → Option α
  | [] => none
  | (k1, v) :: rest => if k = k1 then some v else alookup k rest

/-- Python exceptions that the modelled code can raise. -/
inductive Exc
  /-- Python `AttributeError` (e.g. `None.rpartition`, `None.split`, `e.msg`). -/
  | attributeError : Exc
  /-- Python `TypeError` (e.g. subscripting the `None` returned by `re.search`). -/
  | typeError : Exc
  /-- bare `KeyError` from `label_type_specs[...]` (line 145). -/
  | keyError : Exc
  /-- Python `LookupError(msg)` raised explicitly by the helpers. -/
  | lookupError (msg : Str) : Exc
  /-- Python `NameError` (offset variables unbound for an unknown orientation). -/
  | nameError : Exc
deriving DecidableEq, Repr

/-- Python exception-class test `isinstance(e, LookupError)`:
`KeyError` is a subclass of `LookupError`. -/
def Exc.isLookupError : Exc → Bool
  | .keyError => true
  | .lookupError _ => true
  | _ => false

/-- The three label kinds (`ENDLESS_LABEL`, `DIE_CUT_LABEL`,
`ROUND_DIE_CUT_LABEL` from `brother_ql.devicedependent`). -/
inductive LabelKind
  | endless
  | dieCut
  | roundDieCut
deriving DecidableEq, Repr

/-- One entry of the external `label_type_specs` table: its `'kind'` and
`'dots_printable'` fields (the only fields the modelled code reads). -/
structure LabelSpec where
  kind : LabelKind
  dots_printable : Int × Int
deriving DecidableEq, Repr

/-- The external `label_type_specs` table. -/
abbrev SpecTable := List (Str × LabelSpec)

/-- The external `FONTS` catalog: family → (style → font file path). -/
abbrev FontTable := List (Str × List (Str × Str))

/-- A raw inbound request: each form field is present (`some`) or absent
(`none`).  Numeric fields are modelled as already-parsed integers. -/
structure RawRequest where
  text : Option Str := none
  font_family : Option Str := none
  font_size : Option Int := none
  label_size : Option Str := none
  margin : Option Int := none
  threshold : Option Int := none
  align : Option Str := none
  orientation : Option Str := none
  margin_top : Option Int := none
  margin_bottom : Option Int := none
  margin_left : Option Int := none
  margin_right : Option Int := none
deriving DecidableEq, Repr

def str62 : Str := "62".data
def strStandard : Str := "standard".data
def strRotated : Str := "rotated".data
def strCenter : Str := "center".data
def msgFontLookup : Str := "Could not find the font & style".data
def msgUnknownLabelSize : Str := "Unknown label_size".data
def msgProvideText : Str := "Please provide the text for the label".data

/-! ### Exact model of the IEEE-754 binary64 arithmetic of the margin
conversion.  A float value is represented as a dyadic pair `(m, e)`
standing for `m * 2^e`. -/

/-- Integer power of two: `2^z` for `z ≥ 0` (and `1` for `z < 0`; callers
only use it with non-negative arguments). -/
def pw (z : Int) : Int := ((2 ^ z.toNat : ℕ) : ℤ)

/-- Round the fraction `a / b` (with `b > 0`) to the nearest integer,
ties to even — the rounding of IEEE-754 round-to-nearest-even once the
value has been scaled into the significand range. -/
def rndHalfEvenInt (a b : Int) : Int :=
  let f := Int.fdiv a b
  let r := a - f * b
  if 2 * r < b then f
  else if b < 2 * r then f + 1
  else if f % 2 = 0 then f else f + 1

/-- One bisection step for `floorLog2`: maintain `2^lo ≤ a/b < 2^hi`.
`2^mid ≤ a/b` is decided on integers (`b * 2^mid ≤ a` for `mid ≥ 0`,
`b ≤ a * 2^(-mid)` otherwise). -/
def floorLog2Step (a b : Int) (p : Int × Int) : Int × Int :=
  let mid := Int.fdiv (p.1 + p.2) 2
  if 0 ≤ mid then
    if b * pw mid ≤ a then (mid, p.2) else (p.1, mid)
  else
    if b ≤ a * pw (-mid) then (mid, p.2) else (p.1, mid)

/-- Binade exponent `⌊log2 (a/b)⌋` of a positive fraction, by a
fixed-depth bisection of the exponent range `[-1100, 1100)` (which
contains every finite binary64 binade, subnormals included; 12 steps
shrink the 2200-wide range to a single exponent). -/
def floorLog2 (a b : Int) : Int := ((floorLog2Step a b)^[12] (-1100, 1100)).1

/-- Round a positive fraction `a / b` (both positive) to binary64
precision: scale into `[2^52, 2^53)`, round the significand to nearest
with ties to even, and return the dyadic result `(m, e - 52)`. -/
def roundB64pos (a b : Int) : Int × Int :=
  let e := floorLog2 a b
  let m := if 0 ≤ 52 - e then rndHalfEvenInt (a * pw (52 - e)) b
           else rndHalfEvenInt a (b * pw (e - 52))
  (m, e - 52)

/-- Round the exact fraction `a / b` (with `b > 0`) to the nearest
binary64 value (round-to-nearest, ties-to-even), as a dyadic pair.
IEEE-754 rounding is sign-symmetric. -/
def roundB64 (a b : Int) : Int × Int :=
  if 0 < a then roundB64pos a b
  else if a < 0 then
    let p := roundB64pos (-a) b
    (-p.1, p.2)
  else (0, 0)

/-- Python `int()` applied to a float given as a dyadic pair: truncation
toward zero (`Int.tdiv` is T-division). -/
def dyadicTrunc (p : Int × Int) : Int :=
  if 0 ≤ p.2 then p.1 * pw p.2 else Int.tdiv p.1 (pw (-p.2))

/-- The margin-pixel computation of `get_label_context`:
line 150-153 compute `float(pct)/100.` — `float(pct)` is exact for an
integer below `2^53`, and the division performs one binary64 rounding —
and lines 155-158 compute `int(font_size * that)` — the `int` operand is
promoted exactly, the multiplication performs one binary64 rounding, and
`int()` truncates toward zero. -/
def margin_to_px (font_size pct : Int) : Int :=
  let x := roundB64 pct 100
  let y := if 0 ≤ x.2 then roundB64 (font_size * x.1 * pw x.2) 1
           else roundB64 (font_size * x.1) (pw (-x.2))
  dyadicTrunc y

/-- The context dict built by `get_label_context` (its fields at return). -/
structure LabelContext where
  text : Option Str
  font_size : Int
  font_family : Str
  font_style : Str
  label_size : Str
  kind : LabelKind
  margin : Int
  threshold : Int
  align : Str
  orientation : Str
  margin_top : Int
  margin_bottom : Int
  margin_left : Int
  margin_right : Int
  font_path : Str
  width : Int
  height : Int
deriving DecidableEq, Repr

/-- Inner helper `get_font_path` of `get_label_context` (lines 160-169):
`FONTS[family][style]`; a `KeyError` is caught and re-raised as
`LookupError('Could not find the font & style')`.  The `None`-defaulting
branch of the source is unreachable from `get_label_context` (both
arguments are always strings there, since lines 136-137 raise first when
the font field is absent or malformed), so it is not modelled. -/
def get_font_path (fonts : FontTable) (ff fs : Str) : Except Exc Str :=
  match alookup ff fonts with
  | none => .error (.lookupError msgFontLookup)
  | some styles =>
    match alookup fs styles with
    | none => .error (.lookupError msgFontLookup)
    | some p => .ok p

/-- Inner helper `get_label_dimensions` (lines 173-178):
`label_type_specs[label_size]['dots_printable']`, with the `KeyError`
re-raised as `LookupError("Unknown label_size")`. -/
def get_label_dimensions (specs : SpecTable) (label_size : Str) :
    Except Exc (Int × Int) :=
  match alookup label_size specs with
  | none => .error (.lookupError msgUnknownLabelSize)
  | some ls => .ok ls.dots_printable

/-- Lines 180-184: swap so that width is the long axis, then swap again
exactly when the orientation string equals `'rotated'`. -/
def resolve_dims (wh : Int × Int) (orientation : Str) : Int × Int :=
  let wh1 := if wh.2 > wh.1 then (wh.2, wh.1) else wh
  if orientation = strRotated then (wh1.2, wh1.1) else wh1

/-- Function `get_label_context` (lines 131-186), with the source's evaluation
order: the font-family field is read and parsed first (absent field →
`AttributeError`, no parenthesized style → `TypeError`), then the context
dict is built (the `'kind'` entry indexes `label_type_specs` with the
label size, default `"62"` — a bare `KeyError` on an unknown id), then the
margin percentages are converted to pixels, then `get_font_path` and
`get_label_dimensions` run, then the width/height swaps. -/
def get_label_context (specs : SpecTable) (fonts : FontTable)
    (d : RawRequest) : Except Exc LabelContext :=
  match d.font_family with
  | none => .error .attributeError
  | some ffField =>
    let font_family := strip (beforeLastParen ffField)
    match searchStyle ffField with
    | none => .error .typeError
    | some font_style =>
      let label_size := d.label_size.getD str62
      match alookup label_size specs with
      | none => .error .keyError
      | some ls =>
        let font_size := d.font_size.getD 100
        let margin_top := margin_to_px font_size (d.margin_top.getD 24)
        let margin_bottom := margin_to_px font_size (d.margin_bottom.getD 45)
        let margin_left := margin_to_px font_size (d.margin_left.getD 35)
        let margin_right := margin_to_px font_size (d.margin_right.getD 35)
        match get_font_path fonts font_family font_style with
        | .error e => .error e
        | .ok font_path =>
          match get_label_dimensions specs label_size with
          | .error e => .error e
          | .ok wh =>
            let whFinal := resolve_dims wh (d.orientation.getD strStandard)
            .ok {
              text := d.text
              font_size := font_size
              font_family := font_family
              font_style := font_style
              label_size := label_size
              kind := ls.kind
              margin := d.margin.getD 10
              threshold := d.threshold.getD 70
              align := d.align.getD strCenter
              orientation := d.orientation.getD strStandard
              margin_top := margin_top
              margin_bottom := margin_bottom
              margin_left := margin_left
              margin_right := margin_right
              font_path := font_path
              width := whFinal.1
              height := whFinal.2 }

/-- The blank-line workaround of `create_label_im` (lines 197-201): every
empty line of the text is replaced by a single space before measuring. -/
def normalize_text (t : Str) : Str :=
  joinNl ((splitNl t).map (fun l => if l = [] then [' '] else l))

/-- The bitmap produced by `create_label_im`, abstracted to the data that
determines it: final canvas size, text placement offset
`(horizontal, vertical)`, the normalized text and the alignment. -/
structure Image where
  width : Int
  height : Int
  offset : Int × Int
  text : Str
  align : Str
deriving DecidableEq, Repr

/-- Function `create_label_im` (lines 190-228).  `measure` is the external PIL
`multiline_textsize` oracle, returning `(textWidth, textHeight)`.
A `None` text crashes at `text.split('\n')` (`AttributeError`); an
orientation string other than `'standard'`/`'rotated'` leaves the offset
variables unbound (`NameError` at line 226).  The canvas-size branches
(lines 203-210) grow the text axis for endless labels only; the offset
branches (lines 212-226) use Python floor division `//` (`Int.fdiv`). -/
def create_label_im (measure : Str → Int × Int) (ctx : LabelContext) :
    Except Exc Image :=
  match ctx.text with
  | none => .error .attributeError
  | some t0 =>
    let t := normalize_text t0
    let ts := measure t
    let width :=
      if ctx.orientation = strRotated ∧ ctx.kind = .endless then
        ts.1 + ctx.margin_left + ctx.margin_right
      else ctx.width
    let height :=
      if ctx.orientation = strStandard ∧ ctx.kind = .endless then
        ts.2 + ctx.margin_top + ctx.margin_bottom
      else ctx.height
    if ctx.orientation = strStandard then
      let vertical_offset :=
        if ctx.kind = .dieCut ∨ ctx.kind = .roundDieCut then
          Int.fdiv (height - ts.2) 2 + Int.fdiv (ctx.margin_top - ctx.margin_bottom) 2
        else ctx.margin_top
      let horizontal_offset := max (Int.fdiv (width - ts.1) 2) 0
      .ok { width := width, height := height,
            offset := (horizontal_offset, vertical_offset),
            text := t, align := ctx.align }
    else if ctx.orientation = strRotated then
      let vertical_offset :=
        Int.fdiv (height - ts.2) 2 + Int.fdiv (ctx.margin_top - ctx.margin_bottom) 2
      let horizontal_offset :=
        if ctx.kind = .dieCut ∨ ctx.kind = .roundDieCut then
          max (Int.fdiv (width - ts.1) 2) 0
        else ctx.margin_left
      .ok { width := width, height := height,
            offset := (horizontal_offset, vertical_offset),
            text := t, align := ctx.align }
    else .error .nameError

/-- The `rotate` argument passed to the external encoder (lines 302-305). -/
inductive Rotate
  | r0
  | r90
  | auto
deriving DecidableEq, Repr

/-- Observable side effects of one `print_text` call on the external
encoder/transport: whether `create_label` ran, whether `be.write` was
attempted, and whether `be.dispose` was invoked. -/
structure Trace where
  encoderInvoked : Bool
  writeAttempted : Bool
  disposeInvoked : Bool
deriving DecidableEq, Repr

def Trace.none : Trace := ⟨false, false, false⟩

/-- The JSON dict returned by `print_text`: `success` plus the optional
`error`, `message` and `data` keys. -/
structure PrintResult where
  success : Bool
  error : Option Str := Option.none
  message : Option Str := Option.none
  data : Option Str := Option.none
deriving DecidableEq, Repr

/-- The external transport backend: `write` either returns or raises an
exception whose `str(e)` is the carried message.  (The constructor
`BACKEND_CLASS(...)` is assumed to succeed; the claims concern `write`.) -/
structure Backend where
  writeResult : Except Str Unit

/-- Route handler `get_preview_image` (lines 261-271): no exception handling at all —
any error from the resolver or the composer propagates to the caller.
The PNG/base64 `return_format` encoding of the bitmap is outside the
model; the rendered `Image` stands for the returned image bytes. -/
def get_preview_image (specs : SpecTable) (fonts : FontTable)
    (measure : Str → Int × Int) (d : RawRequest) : Except Exc Image :=
  match get_label_context specs fonts d with
  | .error e => .error e
  | .ok ctx => create_label_im measure ctx

/-- Route handler `print_text` (lines 277-324).  Only `LookupError`s from the resolver
are caught, and the handler then evaluates `e.msg`, which raises
`AttributeError` (Python-3 `LookupError` has no `msg` attribute); other
resolver exceptions, and composer exceptions, propagate.  On the
happy path the encoder always runs; with `DEBUG` unset the backend is
constructed, `write` is attempted, and `dispose` runs only after a
successful `write` (an exception from `write` jumps to the handler,
which returns `{success: False, message: str(e)}`).  `encData` stands for
`str(qlr.data)` produced by the external encoder. -/
def print_text (specs : SpecTable) (fonts : FontTable)
    (measure : Str → Int × Int) (backend : Backend) (encData : Str)
    (debug : Bool) (d : RawRequest) : Except Exc PrintResult × Trace :=
  match get_label_context specs fonts d with
  | .error e =>
    if e.isLookupError then (.error .attributeError, Trace.none)
    else (.error e, Trace.none)
  | .ok context =>
    if context.text = Option.none then
      (.ok { success := false, error := some msgProvideText }, Trace.none)
    else
      match create_label_im measure context with
      | .error e => (.error e, Trace.none)
      | .ok _im =>
        let _rotate : Rotate :=
          if context.kind = .endless then
            (if context.orientation = strStandard then .r0 else .r90)
          else .auto
        if debug then
          (.ok { success := true, data := some encData },
           { encoderInvoked := true, writeAttempted := false,
             disposeInvoked := false })
        else
          match backend.writeResult with
          | .error emsg =>
            (.ok { success := false, message := some emsg },
             { encoderInvoked := true, writeAttempted := true,
               disposeInvoked := false })
          | .ok _ =>
            (.ok { success := true },
             { encoderInvoked := true, writeAttempted := true,
               disposeInvoked := true })

/-! ### Concrete fixtures (test catalogs and requests) -/

def arialBoldPath : Str := "/fonts/arial-bold.ttf".data

/-- Font Catalog of spec Example 2: `{"Arial": {"Bold": "/fonts/arial-bold.ttf"}}`. -/
def fonts0 : FontTable := [("Arial".data, [("Bold".data, arialBoldPath)])]

/-- A label-size table with the default endless size `"62"` (printable
696×0, as in `brother_ql`) and a die-cut size `"29x90"` (printable
306×991, a pair with height > width). -/
def specs0 : SpecTable :=
  [(str62, ⟨.endless, (696, 0)⟩), ("29x90".data, ⟨.dieCut, (306, 991)⟩)]

/-- A fully well-formed request relying on the defaults. -/
def baseReq : RawRequest :=
  { text := some "A".data, font_family := some "Arial (Bold)".data }

/-- A concrete measurement oracle: 30 pixels per character, 60 tall. -/
def measure0 : Str → Int × Int := fun t => (30 * t.length, 60)

def backendOk : Backend := ⟨.ok ()⟩
def backendFail : Backend := ⟨.error "Connection refused".data⟩

def reqFontSize30 : RawRequest := { baseReq with font_size := some 30 }
def reqUnknownFont : RawRequest :=
  { baseReq with font_family := some "Nope (Bold)".data }
def reqUnknownSize : RawRequest :=
  { baseReq with label_size := some "unknown99".data }
def reqNoText : RawRequest := { baseReq with text := Option.none }
def reqMalformedFont : RawRequest :=
  { baseReq with font_family := some "Arial".data }
def reqDieCut : RawRequest := { baseReq with label_size := some "29x90".data }

/-- The context `baseReq` resolves to. -/
def ctxBase : LabelContext :=
  { text := some "A".data, font_size := 100, font_family := "Arial".data,
    font_style := "Bold".data, label_size := str62, kind := .endless,
    margin := 10, threshold := 70, align := strCenter,
    orientation := strStandard, margin_top := 24, margin_bottom := 45,
    margin_left := 35, margin_right := 35, font_path := arialBoldPath,
    width := 696, height := 0 }

/-- The context `reqFontSize30` resolves to. -/
def ctx30 : LabelContext :=
  { ctxBase with
    font_size := 30
    margin_top := 7
    margin_bottom := 13
    margin_left := 10
    margin_right := 10 }

/-- The context `reqDieCut` (standard orientation) resolves to. -/
def ctxDieStd : LabelContext :=
  { ctxBase with
    label_size := "29x90".data
    kind := .dieCut
    width := 991
    height := 306 }

/-- The context `reqDieCut` with rotated orientation resolves to. -/
def ctxDieRot : LabelContext :=
  { ctxDieStd with
    orientation := strRotated
    width := 306
    height := 991 }

/-- The image `baseReq` renders to under `measure0`. -/
def imgBase : Image :=
  { width := 696, height := 129, offset := (333, 24), text := "A".data,
    align := strCenter }

/-- The context `reqNoText` resolves to. -/
def ctxNoText : LabelContext := { ctxBase with text := Option.none }

/-- The image `ctxDieStd` renders to under `measure0`: fixed die-cut
canvas, centered offsets with the margin-asymmetry bias. -/
def imgDieStd : Image :=
  { width := 991, height := 306, offset := (480, 112), text := "A".data,
    align := strCenter }

/-- Swap a `(width, height)` pair — the transformation applied by line 183
when the orientation is `'rotated'`. -/
def swapDims (wh : Int × Int) : Int × Int := (wh.2, wh.1)

/-! ### Shared lemmas -/

/-- Characterization of a successful `get_label_context` run: every field
of the returned context in terms of the raw request and the tables. -/
theorem resolved_fields {specs : SpecTable} {fonts : FontTable}
    {d : RawRequest} {ctx : LabelContext}
    (h : get_label_context specs fonts d = .ok ctx) :
    ctx.text = d.text ∧
    ctx.font_size = d.font_size.getD 100 ∧
    ctx.label_size = d.label_size.getD str62 ∧
    ctx.orientation = d.orientation.getD strStandard ∧
    ctx.margin_top = margin_to_px (d.font_size.getD 100) (d.margin_top.getD 24) ∧
    ctx.margin_bottom = margin_to_px (d.font_size.getD 100) (d.margin_bottom.getD 45) ∧
    ctx.margin_left = margin_to_px (d.font_size.getD 100) (d.margin_left.getD 35) ∧
    ctx.margin_right = margin_to_px (d.font_size.getD 100) (d.margin_right.getD 35) ∧
    ∃ e, alookup (d.label_size.getD str62) specs = some e ∧
      ctx.kind = e.kind ∧
      (ctx.width, ctx.height) =
        resolve_dims e.dots_printable (d.orientation.getD strStandard) := by
  unfold get_label_context at h
  simp only [] at h
  split at h
  · exact absurd h (by simp)
  · split at h
    · exact absurd h (by simp)
    · split at h
      · exact absurd h (by simp)
      · split at h
        · exact absurd h (by simp)
        · split at h
          · exact absurd h (by simp)
          · rename_i xa ff hff xb st hst xc ls hls xd font_path hfp xe wh hwh
            unfold get_label_dimensions at hwh
            rw [hls] at hwh
            simp only [Except.ok.injEq] at hwh
            injection h with h1
            subst h1
            refine ⟨rfl, rfl, rfl, rfl, rfl, rfl, rfl, rfl, ls, hls, rfl, ?_⟩
            simp [hwh]

/-- In standard orientation the resolved canvas is `(long axis, short axis)`
of the printable dimensions. -/
theorem resolve_dims_standard (wh : Int × Int) :
    resolve_dims wh strStandard = (max wh.1 wh.2, min wh.1 wh.2) := by
  rcases wh with ⟨w, h⟩
  unfold resolve_dims
  simp only [if_neg (show ¬ (strStandard = strRotated) by decide)]
  by_cases hlt : h > w
  · rw [if_pos hlt]
    rw [max_eq_right hlt.le, min_eq_left hlt.le]
  · rw [if_neg hlt]
    push_neg at hlt
    rw [max_eq_left hlt, min_eq_right hlt]

/-- In rotated orientation the resolved canvas is `(short axis, long axis)`. -/
theorem resolve_dims_rotated (wh : Int × Int) :
    resolve_dims wh strRotated = (min wh.1 wh.2, max wh.1 wh.2) := by
  rcases wh with ⟨w, h⟩
  unfold resolve_dims
  simp only [if_pos rfl]
  by_cases hlt : h > w
  · rw [if_pos hlt, max_eq_right hlt.le, min_eq_left hlt.le]
    simp
  · rw [if_neg hlt]
    push_neg at hlt
    rw [max_eq_left hlt, min_eq_right hlt]
    simp

/-- Characterization of the font handling of a successful
`get_label_context` run: the style parse succeeded and the font path is
the catalog entry for the parsed family and style. -/
theorem resolved_font_path {specs : SpecTable} {fonts : FontTable}
    {d : RawRequest} {ctx : LabelContext} {s : Str}
    (hs : d.font_family = some s)
    (h : get_label_context specs fonts d = .ok ctx) :
    ∃ st, searchStyle s = some st ∧
      ctx.font_family = strip (beforeLastParen s) ∧
      ctx.font_style = st ∧
      get_font_path fonts (strip (beforeLastParen s)) st = .ok ctx.font_path := by
  unfold get_label_context at h
  rw [hs] at h
  simp only [] at h
  split at h
  · exact absurd h (by simp)
  · split at h
    · exact absurd h (by simp)
    · split at h
      · exact absurd h (by simp)
      · split at h
        · exact absurd h (by simp)
        · rename_i xa st hst xb ls hls xc font_path hfp xd wh hwh
          injection h with h1
          subst h1
          exact ⟨st, hst, rfl, rfl, by rw [hfp]⟩

/-! ### Claim theorems -/

/-- C1: the claim says a Parameter-Resolver failure on the print flow is
returned as a structured `{success: false, ...}` result without crashing.
The code violates this: `print_text` does catch the resolver's
`LookupError`, but the handler's `return_dict['error'] = e.msg` itself
raises `AttributeError` (Python-3 `LookupError` has no `msg` attribute),
so the request crashes instead of returning the structured result.  The
true half — the encoder and transport are never touched — shows in the
trace.  Concrete failing input: a print request whose font is absent from
the catalog. -/
theorem print_resolver_failure_crashes :
    print_text specs0 fonts0 measure0 backendOk [] false reqUnknownFont
      = (.error .attributeError, Trace.none) ∧
    Exc.isLookupError (.lookupError msgFontLookup) = true := by
  constructor
  · decide
  · decide

/-- C2: the claim says an unknown `label_size` yields the structured
result `{success: false, errorKind: UnknownLabelSize}` on both flows.
The code violates this on both flows: resolution does fail with a
`LookupError`-class exception (the bare `KeyError` of line 145), but
`get_preview_image` has no handler at all, so the exception propagates,
and `print_text`'s handler crashes on `e.msg` (`AttributeError`).
Concrete failing input: `label_size = "unknown99"`. -/
theorem unknown_label_size_crashes_both_flows :
    get_preview_image specs0 fonts0 measure0 reqUnknownSize
      = .error .keyError ∧
    Exc.isLookupError .keyError = true ∧
    print_text specs0 fonts0 measure0 backendOk [] false reqUnknownSize
      = (.error .attributeError, Trace.none) := by
  refine ⟨by decide, by decide, by decide⟩

/-- C3 counterexample: the claim says each pixel margin equals
`round(percentage/100 * fontSizePt)`.  At `font_size = 30` with the
default `margin_bottom` percentage 45, the code computes
`int(30 * (float(45)/100.)) = int(13.5) = 13` (the binary64 product of
30 and the double nearest 0.45 rounds to exactly 13.5), while
`round(45/100 * 30) = round(13.5) = 14`. -/
theorem margin_rounding_counterexample :
    get_label_context specs0 fonts0 reqFontSize30 = .ok ctx30 ∧
    ctx30.margin_bottom = 13 ∧
    round ((45 : ℚ) / 100 * 30) = 14 ∧
    (13 : Int) ≠ 14 := by
  refine ⟨by decide, by decide, ?_, by decide⟩
  norm_num [round_eq]

/-- C3 (amended): each of the four pixel margins equals Python's `int()`
truncation of `fontSizePt * (percentage/100.)` evaluated in IEEE-754
binary64 arithmetic (`margin_to_px`: one correctly rounded division by
100, one correctly rounded multiplication, then truncation toward zero),
with the defaults 24, 45, 35, 35 for the percentages and 100 for the
font size — not `round(percentage/100 * fontSizePt)` as claimed. -/
theorem margins_truncated_not_rounded (specs : SpecTable)
    (fonts : FontTable) (d : RawRequest) (ctx : LabelContext)
    (h : get_label_context specs fonts d = .ok ctx) :
    ctx.margin_top =
      margin_to_px (d.font_size.getD 100) (d.margin_top.getD 24) ∧
    ctx.margin_bottom =
      margin_to_px (d.font_size.getD 100) (d.margin_bottom.getD 45) ∧
    ctx.margin_left =
      margin_to_px (d.font_size.getD 100) (d.margin_left.getD 35) ∧
    ctx.margin_right =
      margin_to_px (d.font_size.getD 100) (d.margin_right.getD 35) := by
  obtain ⟨-, -, -, -, h1, h2, h3, h4, -⟩ := resolved_fields h
  exact ⟨h1, h2, h3, h4⟩

/-- C3 witness: the amended margin formula evaluated on the concrete
request with `font_size = 30` and all margin percentages defaulted. -/
theorem margins_truncated_not_rounded_witness :
    get_label_context specs0 fonts0 reqFontSize30 = .ok ctx30 ∧
    (ctx30.margin_top =
      margin_to_px (reqFontSize30.font_size.getD 100) (reqFontSize30.margin_top.getD 24) ∧
    ctx30.margin_bottom =
      margin_to_px (reqFontSize30.font_size.getD 100) (reqFontSize30.margin_bottom.getD 45) ∧
    ctx30.margin_left =
      margin_to_px (reqFontSize30.font_size.getD 100) (reqFontSize30.margin_left.getD 35) ∧
    ctx30.margin_right =
      margin_to_px (reqFontSize30.font_size.getD 100) (reqFontSize30.margin_right.getD 35)) :=
  ⟨by decide, margins_truncated_not_rounded specs0 fonts0 reqFontSize30 ctx30 (by decide)⟩

/-- C4 counterexample: the claim asserts that `dispose` is still invoked
when the transport `write` raises.  On a concrete well-formed print
request with a failing backend, the orchestrator does return the
structured `{success: false, message}` result, but the trace shows
`dispose` was NOT invoked (lines 312-319: the exception jumps straight
from `be.write` to the handler, skipping `be.dispose()`). -/
theorem dispose_not_invoked_on_write_error :
    print_text specs0 fonts0 measure0 backendFail [] false baseReq
      = (.ok { success := false, message := some "Connection refused".data },
         { encoderInvoked := true, writeAttempted := true,
           disposeInvoked := false }) := by
  decide

/-- C4 (amended): for every print request that reaches the transport, an
exception from `write` is caught and reported as
`{success: false, message: str(e)}` without crashing — but the backend
handle's `dispose` is NOT invoked on that error path (it runs only after
a successful `write`). -/
theorem transport_error_reported_dispose_skipped (specs : SpecTable)
    (fonts : FontTable) (measure : Str → Int × Int) (encData : Str)
    (d : RawRequest) (ctx : LabelContext) (im : Image) (emsg : Str)
    (hctx : get_label_context specs fonts d = .ok ctx)
    (him : create_label_im measure ctx = .ok im) :
    print_text specs fonts measure ⟨.error emsg⟩ encData false d
      = (.ok { success := false, message := some emsg },
         { encoderInvoked := true, writeAttempted := true,
           disposeInvoked := false }) := by
  have htext : ¬ (ctx.text = Option.none) := by
    intro hn
    unfold create_label_im at him
    rw [hn] at him
    exact absurd him (by simp)
  unfold print_text
  rw [hctx]
  simp only [if_neg htext]
  rw [him]
  rfl

/-- C4 witness: the amended behaviour on the concrete base request with a
backend whose `write` raises "printer offline". -/
theorem transport_error_reported_dispose_skipped_witness :
    get_label_context specs0 fonts0 baseReq = .ok ctxBase ∧
    create_label_im measure0 ctxBase = .ok imgBase ∧
    print_text specs0 fonts0 measure0 ⟨.error "printer offline".data⟩ []
        false baseReq
      = (.ok { success := false, message := some "printer offline".data },
         { encoderInvoked := true, writeAttempted := true,
           disposeInvoked := false }) :=
  ⟨by decide, by decide,
   transport_error_reported_dispose_skipped specs0 fonts0 measure0 []
     baseReq ctxBase imgBase "printer offline".data (by decide) (by decide)⟩

/-- C5 counterexample: the claim says a request without a text field
succeeds on the preview flow (empty-canvas rendering).  In the code the
preview flow crashes instead: `create_label_im` calls
`text.split('\n')` on `None`, raising `AttributeError`, and
`get_preview_image` has no handler. -/
theorem preview_missing_text_raises :
    get_preview_image specs0 fonts0 measure0 reqNoText
      = .error .attributeError := by
  decide

/-- C5 (amended): with the text field absent, the print flow returns the
structured failure `{success: false, error: "Please provide the text for
the label"}` and neither the encoder nor the transport is touched; but
the identical request on the preview flow raises an uncaught
`AttributeError` instead of succeeding with an empty canvas. -/
theorem missing_text_print_fails_preview_crashes (specs : SpecTable)
    (fonts : FontTable) (measure : Str → Int × Int) (backend : Backend)
    (encData : Str) (debug : Bool) (d : RawRequest) (ctx : LabelContext)
    (hd : d.text = Option.none)
    (hctx : get_label_context specs fonts d = .ok ctx) :
    print_text specs fonts measure backend encData debug d
      = (.ok { success := false, error := some msgProvideText },
         Trace.none) ∧
    get_preview_image specs fonts measure d = .error .attributeError := by
  have htext : ctx.text = Option.none := by
    obtain ⟨h1, -⟩ := resolved_fields hctx
    rw [h1, hd]
  constructor
  · unfold print_text
    rw [hctx]
    simp only [htext, if_pos]
  · unfold get_preview_image
    rw [hctx]
    simp only []
    unfold create_label_im
    rw [htext]

/-- C5 witness: the amended behaviour on the concrete request with text
absent. -/
theorem missing_text_print_fails_preview_crashes_witness :
    reqNoText.text = Option.none ∧
    get_label_context specs0 fonts0 reqNoText = .ok ctxNoText ∧
    (print_text specs0 fonts0 measure0 backendOk [] false reqNoText
      = (.ok { success := false, error := some msgProvideText },
         Trace.none) ∧
    get_preview_image specs0 fonts0 measure0 reqNoText
      = .error .attributeError) :=
  ⟨by decide, by decide,
   missing_text_print_fails_preview_crashes specs0 fonts0 measure0
     backendOk [] false reqNoText ctxNoText (by decide) (by decide)⟩

/-- C6 counterexample: the claim says a malformed combined font string
(no parenthesized style) fails with the `UnknownFont` error kind.  In the
code, `re.search(r'\((\w*)\)', ...)` returns `None` and subscripting it
raises `TypeError` — which is not a `LookupError`-class failure, so it is
not the `UnknownFont` kind (and is not even caught by `print_text`). -/
theorem malformed_font_not_lookup_failure :
    get_label_context specs0 fonts0 reqMalformedFont = .error .typeError ∧
    Exc.isLookupError .typeError = false := by
  refine ⟨by decide, by decide⟩

/-- C6 (amended): a malformed combined font string (one the style regex
does not match) makes the resolver raise an uncaught `TypeError`, not the
`UnknownFont` lookup failure; a well-formed `"<Family> (<Style>)"` string
whose family/style pair is present in the Font Catalog never produces the
font lookup failure, and a successful resolution carries that font's
resource path. -/
theorem font_parse_malformed_vs_wellformed (specs : SpecTable)
    (fonts : FontTable) (dBad d : RawRequest) (s s2 st p : Str)
    (h1 : dBad.font_family = some s) (h2 : searchStyle s = none)
    (h3 : d.font_family = some s2)
    (hst : searchStyle s2 = some st)
    (hfp : get_font_path fonts (strip (beforeLastParen s2)) st = .ok p) :
    get_label_context specs fonts dBad = .error .typeError ∧
    get_label_context specs fonts d ≠ .error (.lookupError msgFontLookup) ∧
    ∀ ctx : LabelContext, get_label_context specs fonts d = .ok ctx →
      ctx.font_path = p := by
  refine ⟨?_, ?_, ?_⟩
  · unfold get_label_context
    simp only [h1, h2]
  · intro heq
    unfold get_label_context at heq
    rw [h3] at heq
    simp only [] at heq
    rw [hst] at heq
    simp only [] at heq
    split at heq
    · simp at heq
    · rw [hfp] at heq
      simp only [] at heq
      split at heq
      · rename_i e hde
        unfold get_label_dimensions at hde
        split at hde
        · injection hde with hde1
          rw [← hde1] at heq
          simp only [Except.error.injEq, Exc.lookupError.injEq] at heq
          exact absurd heq (by decide)
        · exact absurd hde (by simp)
      · simp at heq
  · intro ctx h4
    obtain ⟨st2, hst2, -, -, hfp2⟩ := resolved_font_path h3 h4
    rw [hst] at hst2
    injection hst2 with hst3
    subst hst3
    rw [hfp] at hfp2
    injection hfp2 with h5
    exact h5.symm

/-- C6 witness: the amended behaviour on `font_family = "Arial"`
(malformed) and `font_family = "Arial (Bold)"` against the Example-2
catalog. -/
theorem font_parse_malformed_vs_wellformed_witness :
    get_label_context specs0 fonts0 reqMalformedFont = .error .typeError ∧
    get_label_context specs0 fonts0 baseReq
      ≠ .error (.lookupError msgFontLookup) ∧
    ctxBase.font_path = arialBoldPath :=
  have H := font_parse_malformed_vs_wellformed specs0 fonts0
    reqMalformedFont baseReq "Arial".data "Arial (Bold)".data "Bold".data
    arialBoldPath (by decide) (by decide) (by decide) (by decide) (by decide)
  ⟨H.1, H.2.1, H.2.2 ctxBase (by decide)⟩

/-- C7: final canvas dimensions of the composed label (lines 203-210).
Endless + standard grows the height to text height plus vertical margins
with the width canonical; endless + rotated grows the width to text
width plus horizontal margins with the height canonical; for die-cut
kinds both dimensions are the Geometry Engine's values, independent of
the text. -/
theorem composed_canvas_dimensions (measure : Str → Int × Int)
    (ctx : LabelContext) (t : Str) (img : Image)
    (ht : ctx.text = some t)
    (h : create_label_im measure ctx = .ok img) :
    (ctx.orientation = strStandard → ctx.kind = .endless →
      img.height = (measure (normalize_text t)).2
        + ctx.margin_top + ctx.margin_bottom ∧
      img.width = ctx.width) ∧
    (ctx.orientation = strRotated → ctx.kind = .endless →
      img.width = (measure (normalize_text t)).1
        + ctx.margin_left + ctx.margin_right ∧
      img.height = ctx.height) ∧
    ((ctx.kind = .dieCut ∨ ctx.kind = .roundDieCut) →
      img.width = ctx.width ∧ img.height = ctx.height) := by
  unfold create_label_im at h
  rw [ht] at h
  simp only [] at h
  refine ⟨?_, ?_, ?_⟩
  · intro ho hk
    rw [if_pos ho] at h
    have hwne : ¬ (ctx.orientation = strRotated ∧ ctx.kind = .endless) := by
      rw [ho]
      rintro ⟨hc, -⟩
      exact absurd hc (by decide)
    rw [if_neg hwne, if_pos (And.intro ho hk)] at h
    injection h with h1
    subst h1
    exact ⟨rfl, rfl⟩
  · intro ho hk
    have hsne : ¬ (ctx.orientation = strStandard) := by
      rw [ho]
      decide
    rw [if_neg hsne, if_pos ho] at h
    have hhne : ¬ (ctx.orientation = strStandard ∧ ctx.kind = .endless) :=
      fun hc => hsne hc.1
    rw [if_pos (And.intro ho hk), if_neg hhne] at h
    injection h with h1
    subst h1
    exact ⟨rfl, rfl⟩
  · intro hk
    have hkne : ¬ (ctx.kind = .endless) := by
      rcases hk with hk | hk <;> rw [hk] <;> decide
    have hwne : ¬ (ctx.orientation = strRotated ∧ ctx.kind = .endless) :=
      fun hc => hkne hc.2
    have hhne : ¬ (ctx.orientation = strStandard ∧ ctx.kind = .endless) :=
      fun hc => hkne hc.2
    rw [if_neg hwne, if_neg hhne] at h
    by_cases ho : ctx.orientation = strStandard
    · rw [if_pos ho] at h
      injection h with h1
      subst h1
      exact ⟨rfl, rfl⟩
    · rw [if_neg ho] at h
      by_cases hr : ctx.orientation = strRotated
      · rw [if_pos hr] at h
        injection h with h1
        subst h1
        exact ⟨rfl, rfl⟩
      · rw [if_neg hr] at h
        exact absurd h (by simp)

/-- C7 witness: the dimension rules evaluated on the endless standard
base fixture and on the die-cut fixture. -/
theorem composed_canvas_dimensions_witness :
    (imgBase.height = (measure0 (normalize_text "A".data)).2
        + ctxBase.margin_top + ctxBase.margin_bottom ∧
      imgBase.width = ctxBase.width) ∧
    (imgDieStd.width = ctxDieStd.width ∧
      imgDieStd.height = ctxDieStd.height) :=
  ⟨(composed_canvas_dimensions measure0 ctxBase "A".data imgBase
      (by decide) (by decide)).1 (by decide) (by decide),
   (composed_canvas_dimensions measure0 ctxDieStd "A".data imgDieStd
      (by decide) (by decide)).2.2 (Or.inl (by decide))⟩

/-- C8: text placement offsets of the composed label (lines 212-226), in
Python floor division (`Int.fdiv`).  Standard orientation: die-cut kinds
center vertically with the `(marginTop - marginBottom)/2` bias, endless
anchors at `marginTop`; the horizontal offset is
`max((width - textWidth)/2, 0)`.  Rotated orientation: the vertical
offset always uses the centering formula; die-cut kinds center
horizontally, endless anchors at `marginLeft`. -/
theorem composed_text_offsets (measure : Str → Int × Int)
    (ctx : LabelContext) (t : Str) (img : Image)
    (ht : ctx.text = some t)
    (h : create_label_im measure ctx = .ok img) :
    (ctx.orientation = strStandard →
      ((ctx.kind = .dieCut ∨ ctx.kind = .roundDieCut) →
        img.offset.2 = Int.fdiv (img.height - (measure (normalize_text t)).2) 2
          + Int.fdiv (ctx.margin_top - ctx.margin_bottom) 2) ∧
      (ctx.kind = .endless → img.offset.2 = ctx.margin_top) ∧
      img.offset.1 = max (Int.fdiv (img.width - (measure (normalize_text t)).1) 2) 0) ∧
    (ctx.orientation = strRotated →
      img.offset.2 = Int.fdiv (img.height - (measure (normalize_text t)).2) 2
        + Int.fdiv (ctx.margin_top - ctx.margin_bottom) 2 ∧
      ((ctx.kind = .dieCut ∨ ctx.kind = .roundDieCut) →
        img.offset.1 = max (Int.fdiv (img.width - (measure (normalize_text t)).1) 2) 0) ∧
      (ctx.kind = .endless → img.offset.1 = ctx.margin_left)) := by
  unfold create_label_im at h
  rw [ht] at h
  simp only [] at h
  constructor
  · intro ho
    rw [if_pos ho] at h
    injection h with h1
    subst h1
    refine ⟨?_, ?_, rfl⟩
    · intro hk
      rw [if_pos hk]
    · intro hk
      have hne : ¬ (ctx.kind = .dieCut ∨ ctx.kind = .roundDieCut) := by
        rw [hk]
        decide
      rw [if_neg hne]
  · intro ho
    have hsne : ¬ (ctx.orientation = strStandard) := by
      rw [ho]
      decide
    rw [if_neg hsne, if_pos ho] at h
    injection h with h1
    subst h1
    refine ⟨rfl, ?_, ?_⟩
    · intro hk
      rw [if_pos hk]
    · intro hk
      have hne : ¬ (ctx.kind = .dieCut ∨ ctx.kind = .roundDieCut) := by
        rw [hk]
        decide
      rw [if_neg hne]

/-- C8 witness: the offset rules evaluated on the die-cut fixture
(centering with bias) and the endless standard fixture (margin anchor
and horizontal centering). -/
theorem composed_text_offsets_witness :
    imgDieStd.offset.2
      = Int.fdiv (imgDieStd.height - (measure0 (normalize_text "A".data)).2) 2
        + Int.fdiv (ctxDieStd.margin_top - ctxDieStd.margin_bottom) 2 ∧
    imgBase.offset.2 = ctxBase.margin_top ∧
    imgBase.offset.1
      = max (Int.fdiv (imgBase.width - (measure0 (normalize_text "A".data)).1) 2) 0 :=
  ⟨((composed_text_offsets measure0 ctxDieStd "A".data imgDieStd
      (by decide) (by decide)).1 (by decide)).1 (Or.inl (by decide)),
   ((composed_text_offsets measure0 ctxBase "A".data imgBase
      (by decide) (by decide)).1 (by decide)).2.1 (by decide),
   ((composed_text_offsets measure0 ctxBase "A".data imgBase
      (by decide) (by decide)).1 (by decide)).2.2⟩

/-- C9: the Geometry Engine (lines 180-184) first normalizes the
printable pair so width is the long axis, then swaps exactly when the
orientation is rotated; applying the rotation swap to the rotated result
recovers the standard result, and the swap is involutive. -/
theorem dims_swap_involutive (specs : SpecTable) (fonts : FontTable)
    (d : RawRequest) (e : LabelSpec) (ctxS ctxR : LabelContext)
    (hls : alookup (d.label_size.getD str62) specs = some e)
    (hS : get_label_context specs fonts
      { d with orientation := some strStandard } = .ok ctxS)
    (hR : get_label_context specs fonts
      { d with orientation := some strRotated } = .ok ctxR) :
    ctxS.width = max e.dots_printable.1 e.dots_printable.2 ∧
    ctxS.height = min e.dots_printable.1 e.dots_printable.2 ∧
    (ctxR.width, ctxR.height) = swapDims (ctxS.width, ctxS.height) ∧
    swapDims (swapDims (ctxS.width, ctxS.height))
      = (ctxS.width, ctxS.height) := by
  obtain ⟨-, -, -, -, -, -, -, -, e1, he1, -, hd1⟩ := resolved_fields hS
  obtain ⟨-, -, -, -, -, -, -, -, e2, he2, -, hd2⟩ := resolved_fields hR
  have he1d : alookup (d.label_size.getD str62) specs = some e1 := he1
  have he2d : alookup (d.label_size.getD str62) specs = some e2 := he2
  rw [hls] at he1d he2d
  injection he1d with he1e
  injection he2d with he2e
  subst he1e
  subst he2e
  have hd1s : (ctxS.width, ctxS.height) =
      resolve_dims e.dots_printable strStandard := hd1
  have hd2s : (ctxR.width, ctxR.height) =
      resolve_dims e.dots_printable strRotated := hd2
  rw [resolve_dims_standard] at hd1s
  rw [resolve_dims_rotated] at hd2s
  have hSw : ctxS.width = max e.dots_printable.1 e.dots_printable.2 :=
    congrArg Prod.fst hd1s
  have hSh : ctxS.height = min e.dots_printable.1 e.dots_printable.2 :=
    congrArg Prod.snd hd1s
  refine ⟨hSw, hSh, ?_, rfl⟩
  rw [hd2s]
  simp only [swapDims]
  rw [hSw, hSh]

/-- C9 witness: the swap behaviour on the die-cut size `"29x90"` whose
printable pair (306, 991) has height greater than width. -/
theorem dims_swap_involutive_witness :
    ctxDieStd.width = max (306 : Int) 991 ∧
    ctxDieStd.height = min (306 : Int) 991 ∧
    (ctxDieRot.width, ctxDieRot.height)
      = swapDims (ctxDieStd.width, ctxDieStd.height) ∧
    swapDims (swapDims (ctxDieStd.width, ctxDieStd.height))
      = (ctxDieStd.width, ctxDieStd.height) :=
  dims_swap_involutive specs0 fonts0 reqDieCut ⟨.dieCut, (306, 991)⟩
    ctxDieStd ctxDieRot (by decide) (by decide) (by decide)

/-- C10: a request without a `label_size` field resolves exactly like the
same request with `label_size = "62"` — on the resolver and on both
flows — and a successful resolution uses the `"62"` table entry's kind
and printable dimensions. -/
theorem absent_label_size_defaults_to_62 (specs : SpecTable)
    (fonts : FontTable) (measure : Str → Int × Int) (backend : Backend)
    (encData : Str) (debug : Bool) (d : RawRequest) (e : LabelSpec)
    (ctx : LabelContext)
    (hnone : d.label_size = Option.none)
    (h62 : alookup str62 specs = some e)
    (hok : get_label_context specs fonts d = .ok ctx) :
    get_label_context specs fonts d
      = get_label_context specs fonts { d with label_size := some str62 } ∧
    get_preview_image specs fonts measure d
      = get_preview_image specs fonts measure
          { d with label_size := some str62 } ∧
    print_text specs fonts measure backend encData debug d
      = print_text specs fonts measure backend encData debug
          { d with label_size := some str62 } ∧
    ctx.label_size = str62 ∧
    ctx.kind = e.kind ∧
    (ctx.width, ctx.height)
      = resolve_dims e.dots_printable (d.orientation.getD strStandard) := by
  have hctxeq : get_label_context specs fonts d
      = get_label_context specs fonts { d with label_size := some str62 } := by
    simp only [get_label_context, hnone, Option.getD_none, Option.getD_some]
  refine ⟨hctxeq, ?_, ?_, ?_, ?_, ?_⟩
  · unfold get_preview_image
    rw [hctxeq]
  · unfold print_text
    rw [hctxeq]
  · obtain ⟨-, -, h3, -⟩ := resolved_fields hok
    rw [h3, hnone]
    rfl
  · obtain ⟨-, -, -, -, -, -, -, -, e1, he1, hk, -⟩ := resolved_fields hok
    rw [hnone] at he1
    simp only [Option.getD_none] at he1
    rw [h62] at he1
    injection he1 with he1e
    rw [hk, he1e]
  · obtain ⟨-, -, -, -, -, -, -, -, e1, he1, -, hd⟩ := resolved_fields hok
    rw [hnone] at he1
    simp only [Option.getD_none] at he1
    rw [h62] at he1
    injection he1 with he1e
    rw [hd, he1e]

/-- C10 witness: the default substitution on the base request (no
`label_size` field) against the table containing `"62"`. -/
theorem absent_label_size_defaults_to_62_witness :
    get_label_context specs0 fonts0 baseReq
      = get_label_context specs0 fonts0
          { baseReq with label_size := some str62 } ∧
    get_preview_image specs0 fonts0 measure0 baseReq
      = get_preview_image specs0 fonts0 measure0
          { baseReq with label_size := some str62 } ∧
    print_text specs0 fonts0 measure0 backendOk [] false baseReq
      = print_text specs0 fonts0 measure0 backendOk [] false
          { baseReq with label_size := some str62 } ∧
    ctxBase.label_size = str62 ∧
    ctxBase.kind = LabelSpec.kind ⟨.endless, (696, 0)⟩ ∧
    (ctxBase.width, ctxBase.height)
      = resolve_dims (LabelSpec.dots_printable ⟨.endless, (696, 0)⟩)
          (baseReq.orientation.getD strStandard) :=
  absent_label_size_defaults_to_62 specs0 fonts0 measure0 backendOk []
    false baseReq ⟨.endless, (696, 0)⟩ ctxBase (by decide) (by decide)
    (by decide)
